import Mathlib

/-!
Shallow embedding of the AttendAuto attendance-checker core
(src/attendance_checker.py, src/webapp.py, src/config.py).

Python strings are modelled as lists of characters (`Str`).  Python's
ASCII-relevant behaviour of `str.strip`, `str.upper`, `str.isdigit`,
`str.isalnum` and of the regular expressions `[A-Z0-9]{3,8}`, `[A-Z0-9]{4,6}`
and `\d+` is reproduced by executable list functions below.  Browser calls,
Playwright waits and logging are side effects with no bearing on the data
flow and are dropped; a fallible call (AI response, element text) is an
`Option`.
-/

/-- A Python string, modelled as its list of characters. -/
abbrev Str := List Char

/-- Drop the characters satisfying `p` from both ends of a string
(the shape of Python's `str.strip`). -/
def stripBy (p : Char → Bool) (s : Str) : Str :=
  ((s.dropWhile p).reverse.dropWhile p).reverse

/-- Python `str.strip()`: remove surrounding whitespace. -/
def stripWs (s : Str) : Str :=
  stripBy Char.isWhitespace s

/-- Python `str.upper()` on the ASCII range: uppercase every character. -/
def toUpperStr (s : Str) : Str :=
  s.map Char.toUpper

/-- The character class `[A-Z0-9]` of the cleaning regexes: code points
65-90 ('A'-'Z') and 48-57 ('0'-'9'). -/
def isAZ09 (c : Char) : Bool :=
  (65 ≤ c.toNat && c.toNat ≤ 90) || (48 ≤ c.toNat && c.toNat ≤ 57)

/-- The punctuation set of `clean_captcha_response` step 4, the argument of
`captcha_text.strip('\x27".,!?-_()[]\x7b\x7d:;')`. -/
def punctChars : Str :=
  "\x27\".,!?-_()[]\x7b\x7d:;".data

/-- Membership in the stripped punctuation set. -/
def isPunctChar (c : Char) : Bool :=
  punctChars.contains c

/-- Python `s.startswith(pat)`. -/
def startsWithPat : Str → Str → Bool
  | [], _ => true
  | _ :: _, [] => false
  | p :: ps, c :: cs => p == c && startsWithPat ps cs

/-- Python `pat in s` (substring test). -/
def containsSub (pat : Str) : Str → Bool
  | [] => pat.isEmpty
  | c :: cs => startsWithPat pat (c :: cs) || containsSub pat cs

/-- The suffix of `s` beginning right after the first occurrence of `pat`
(`[]` when `pat` does not occur). -/
def afterFirst (pat : Str) : Str → Str
  | [] => []
  | c :: cs => if startsWithPat pat (c :: cs) then (c :: cs).drop pat.length else afterFirst pat cs

/-- The characters of `s` before the first occurrence of `pat`
(all of `s` when `pat` does not occur).  `upToNext pat (afterFirst pat s)`
is Python's `s.split(pat)[1]` when `pat` occurs in `s`. -/
def upToNext (pat : Str) : Str → Str
  | [] => []
  | c :: cs => if startsWithPat pat (c :: cs) then [] else c :: upToNext pat cs

/-- Accumulator worker for `firstClassRun`; `cur` is the reversed current run. -/
def firstClassRunAux (p : Char → Bool) (k m : Nat) : Str → Str → Option Str
  | cur, [] => if k ≤ cur.length then some (cur.reverse.take m) else none
  | cur, c :: cs =>
    if p c then firstClassRunAux p k m (c :: cur) cs
    else if k ≤ cur.length then some (cur.reverse.take m)
    else firstClassRunAux p k m [] cs

/-- First match of the regex `p{k,m}` in `s` (`re.findall(...)[0]`): the first
maximal run of `p`-characters of length at least `k`, cut to its first `m`
characters. -/
def firstClassRun (p : Char → Bool) (k m : Nat) (s : Str) : Option Str :=
  firstClassRunAux p k m [] s

/-- Accumulator worker for `firstDigitRun`; `cur` is the reversed current run. -/
def firstDigitRunAux : Str → Str → Option Str
  | cur, [] => if cur.isEmpty then none else some cur.reverse
  | cur, c :: cs =>
    if c.isDigit then firstDigitRunAux (c :: cur) cs
    else if cur.isEmpty then firstDigitRunAux [] cs
    else some cur.reverse

/-- First match of the regex `\d+` in `s` (`re.findall(r'\d+', s)[0]`). -/
def firstDigitRun (s : Str) : Option Str :=
  firstDigitRunAux [] s

/-- Python `int(s)` on a digit string. -/
def digitsToNat (s : Str) : Nat :=
  s.foldl (fun n c => 10 * n + (c.toNat - 48)) 0

/-- Python `s.isdigit()` on the ASCII range: nonempty and all digits. -/
def isDigitStr (s : Str) : Bool :=
  !s.isEmpty && s.all Char.isDigit

/-- Python `s.isalnum()` on the ASCII range: nonempty and all alphanumeric. -/
def isAlnumStr (s : Str) : Bool :=
  !s.isEmpty && s.all Char.isAlphanum

/-! ## TextNormalizer: `clean_captcha_response` and `clean_captcha_character` -/

/-- The `unwanted_patterns` list of `clean_captcha_response` step 2. -/
def unwantedPatterns : List Str :=
  ["THE TEXT IS:".data, "TEXT:".data, "CAPTCHA:".data, "ANSWER:".data,
   "RESULT:".data, "THE ANSWER IS:".data, "THE CAPTCHA IS:".data,
   "THE CODE IS:".data, "CODE:".data, "IMAGE CONTAINS:".data, "I SEE:".data,
   "THE IMAGE SHOWS:".data, "THE TEXT IN THE IMAGE IS:".data,
   "CAPTCHA TEXT:".data, "THE CAPTCHA TEXT IS:".data]

/-- Step 2 of `clean_captcha_response`: strip the first matching unwanted
pattern (first match wins, at most one is stripped), then strip whitespace. -/
def stripOneLeading : List Str → Str → Str
  | [], s => s
  | pat :: pats, s =>
    if startsWithPat pat s then stripWs (s.drop pat.length) else stripOneLeading pats s

/-- Step 5 of `clean_captcha_response`, `unicodedata.normalize('NFKD', ...)`,
modelled as the identity: NFKD is the identity on the ASCII text these claims
concern, and step 6's `[A-Z0-9]` filter makes every value consumed after this
step ASCII-only. -/
def nfkd (s : Str) : Str := s

/-- Step 1 of `clean_captcha_response`: `text.strip().upper()`. -/
def cleanStep1 (s : Str) : Str := toUpperStr (stripWs s)

/-- Step 2: strip one unwanted leading pattern. -/
def cleanStep2 (s : Str) : Str := stripOneLeading unwantedPatterns s

/-- Step 3: `re.findall(r'[A-Z0-9]{3,8}', ...)` and keep the first match when
there is one. -/
def cleanStep3 (s : Str) : Str :=
  match firstClassRun isAZ09 3 8 s with
  | some m => m
  | none => s

/-- Step 4: strip surrounding quotes and punctuation. -/
def cleanStep4 (s : Str) : Str := stripBy isPunctChar s

/-- Step 5: Unicode NFKD (identity here, see `nfkd`). -/
def cleanStep5 (s : Str) : Str := nfkd s

/-- Step 6: `re.sub(r'[^A-Z0-9]', '', ...)`. -/
def cleanStep6 (s : Str) : Str := s.filter isAZ09

/-- Steps 1-6 of `clean_captcha_response` composed. -/
def cleanCore (s : Str) : Str :=
  cleanStep6 (cleanStep5 (cleanStep4 (cleanStep3 (cleanStep2 (cleanStep1 s)))))

/-- Step 7 of `clean_captcha_response`, the final validation and length
check (attendance_checker.py 188-206), applied to the cleaned text `t`:
length 3-10 is accepted as-is; length over 10 is cut to the first
`[A-Z0-9]{4,6}` match, else to the first 6 characters; anything else
nonempty is returned as a low-confidence value, empty is rejected. -/
def cleanFinalize (t : Str) : Option Str :=
  if ¬t.isEmpty ∧ 3 ≤ t.length ∧ t.length ≤ 10 then some t
  else if ¬t.isEmpty ∧ 10 < t.length then
    match firstClassRun isAZ09 4 6 t with
    | some code => some code
    | none => if 3 ≤ t.length then some (t.take 6) else none
  else if ¬t.isEmpty then some t
  else none

/-- `JainAttendanceChecker.clean_captcha_response` (attendance_checker.py
135-206).  `none` is Python's `None`. -/
def clean_captcha_response (text : Str) : Option Str :=
  if text.isEmpty then none
  else cleanFinalize (cleanCore text)

/-- Unicode category Cc (control characters): U+0000-U+001F and U+007F-U+009F. -/
def isCcChar (c : Char) : Bool :=
  c.toNat ≤ 31 || (127 ≤ c.toNat && c.toNat ≤ 159)

/-- `JainAttendanceChecker.clean_captcha_character` (attendance_checker.py
112-133) on one character: strip whitespace, remove Cc control characters,
uppercase, keep only if alphanumeric.  `none` is the empty result string. -/
def clean_captcha_character (c : Char) : Option Char :=
  if c.isWhitespace then none
  else if isCcChar c then none
  else
    let u := c.toUpper
    if u.isAlphanum then some u else none

/-! ## FieldTyper: `fill_captcha_character_by_character` -/

/-- `JainAttendanceChecker.fill_captcha_character_by_character`
(attendance_checker.py 551-579): the field is cleared, then each character of
the text is cleaned with `clean_captcha_character` and typed as one keystroke
if it survives, skipped otherwise.  The result is the keystroke sequence,
which is also the field value read back at the end. -/
def fill_captcha_character_by_character (text : Str) : Str :=
  text.filterMap clean_captcha_character

/-! ## CountExtractor: `extract_conducted_count` and `extract_attended_count` -/

/-- A DOM element as the count extractors see it: its visibility at scan time
and its text content (`""` also stands for a `None` text, which Python's
truthiness checks treat identically). -/
structure Element where
  visible : Bool
  text : Str
deriving DecidableEq

/-- The literal marker "Total-" of the composite attended string. -/
def totalMarker : Str := "Total-".data

/-- Parse Python's `text.split("Total-")[1]` and `re.findall(r'\d+', ...)[0]`:
the first run of digits in the segment after the first "Total-" (and before a
second "Total-", as `split` cuts there), as a number. -/
def totalParse (t : Str) : Option Nat :=
  (firstDigitRun (upToNext totalMarker (afterFirst totalMarker t))).map digitsToNat

/-- The visible scan of `extract_conducted_count` (attendance_checker.py
805-819), already given the collection in the reversed order the code
iterates it: return the first visible element whose stripped text is a pure
digit string with value in [1,50]. -/
def conductedLoop : List Element → Option Nat
  | [] => none
  | e :: rest =>
    if e.visible then
      if !e.text.isEmpty && isDigitStr (stripWs e.text) then
        let result := digitsToNat (stripWs e.text)
        if 1 ≤ result ∧ result ≤ 50 then some result else conductedLoop rest
      else conductedLoop rest
    else conductedLoop rest

/-- The fallback of `extract_conducted_count` (attendance_checker.py 821-827)
on the last collected element: any pure digit string is accepted, with no
visibility requirement and no range check. -/
def conductedLast (e : Element) : Option Nat :=
  if !e.text.isEmpty && isDigitStr (stripWs e.text) then
    some (digitsToNat (stripWs e.text))
  else none

/-- `JainAttendanceChecker.extract_conducted_count` (attendance_checker.py
789-833) over the collected `span[id*='lblClsCondID']` elements in document
order: backward visible scan, then the last-element fallback, else absent. -/
def extract_conducted_count (elems : List Element) : Option Nat :=
  match conductedLoop elems.reverse with
  | some n => some n
  | none =>
    match elems.getLast? with
    | some e => conductedLast e
    | none => none

/-- The visible scan of `extract_attended_count` (attendance_checker.py
851-880), given the collection in the reversed order the code iterates it:
for the first visible element with nonempty stripped text, parse the
"Total-" composite form, else accept a pure digit string in [1,50]; keep
scanning when neither branch produces a number. -/
def attendedLoop : List Element → Option Nat
  | [] => none
  | e :: rest =>
    if e.visible then
      let t := stripWs e.text
      if t.isEmpty then attendedLoop rest
      else if containsSub totalMarker t then
        match totalParse t with
        | some n => some n
        | none => attendedLoop rest
      else if isDigitStr t then
        if 1 ≤ digitsToNat t ∧ digitsToNat t ≤ 50 then some (digitsToNat t)
        else attendedLoop rest
      else attendedLoop rest
    else attendedLoop rest

/-- The fallback of `extract_attended_count` (attendance_checker.py 882-892)
on the last collected element: only the "Total-" branch is reparsed - a pure
digit string is not accepted here. -/
def attendedLast (e : Element) : Option Nat :=
  if !e.text.isEmpty && containsSub totalMarker e.text then totalParse e.text
  else none

/-- `JainAttendanceChecker.extract_attended_count` (attendance_checker.py
835-898) over the collected `span[id*='lblClsAttID']` elements in document
order: backward visible scan, then the last-element fallback, else absent. -/
def extract_attended_count (elems : List Element) : Option Nat :=
  match attendedLoop elems.reverse with
  | some n => some n
  | none =>
    match elems.getLast? with
    | some e => attendedLast e
    | none => none

/-! ## ExtractionCascade: anchor discovery in `extract_attendance_data` -/

/-- What each locator strategy of `extract_attendance_data` (attendance_checker.py
606-663) would return on the current page: the CSS selector, the XPath
selector, the ordered alternative selectors, and the generic clickable
elements enumerated only for diagnostics.  A strategy that raises is modelled
by an empty result, which is how the code's `try/except` leaves `plus_icons`. -/
structure PageStrategies (E : Type) where
  css : List E
  xpath : List E
  alts : List (List E)
  clickables : List E

/-- The strategy-3 loop over the alternative selectors: first nonempty result
wins; if none is nonempty the loop leaves the last (empty) query result. -/
def altLoop {E : Type} : List (List E) → List E
  | [] => []
  | s :: ss => if s.isEmpty then altLoop ss else s

/-- Anchor discovery of `extract_attendance_data`: CSS first, XPath if that
was empty, then the alternative selectors in order; empty if all fail (the
code then only logs clickable elements and returns without processing). -/
def discoverAnchors {E : Type} (p : PageStrategies E) : List E :=
  let icons1 := p.css
  let icons2 := if icons1.isEmpty then p.xpath else icons1
  if icons2.isEmpty then altLoop p.alts else icons2

/-- The first nonempty list of an ordered strategy-result list, `[]` when all
are empty - the spec-side "tried in order, first success wins, no merging". -/
def firstNonEmptyStrategy {E : Type} (ls : List (List E)) : List E :=
  (ls.find? (fun l => !l.isEmpty)).getD []

/-! ## Subject storage in `extract_attendance_data` -/

/-- The per-subject storage step of `extract_attendance_data`
(attendance_checker.py 666-707): each subject yields a pair of extraction
outcomes (conducted, attended); both are appended to `conducted_list` and
`attended_list` exactly when both are present, otherwise the subject is
only logged and nothing is appended. -/
def processSubjects : List (Option Nat × Option Nat) → List Nat × List Nat
  | [] => ([], [])
  | r :: rest =>
    match r with
    | (some c, some a) =>
      let tail := processSubjects rest
      (c :: tail.1, a :: tail.2)
    | _ => processSubjects rest

/-- `JainAttendanceChecker.extract_attendance_data` (attendance_checker.py
581-710) reduced to its data flow: discover the anchors; if none are found,
return with the lists still empty (the run cannot proceed for this page);
otherwise process each discovered subject, storing the fully extracted ones. -/
def extract_attendance_data {E : Type} (p : PageStrategies E)
    (outcome : E → Option Nat × Option Nat) : List Nat × List Nat :=
  let anchors := discoverAnchors p
  if anchors.isEmpty then ([], [])
  else processSubjects (anchors.map outcome)

/-! ## AttendanceAggregator: `prepare_results_for_web` (webapp.py 157-204) -/

/-- The attendance status classification. -/
inductive Status where
  | GOOD
  | WARNING
  | CRITICAL
deriving DecidableEq

/-- `config.GOOD_ATTENDANCE_THRESHOLD` (config.py 33). -/
def GOOD_ATTENDANCE_THRESHOLD : Nat := 75

/-- `config.WARNING_ATTENDANCE_THRESHOLD` (config.py 34). -/
def WARNING_ATTENDANCE_THRESHOLD : Nat := 65

/-- Per-subject percentage, `(attended / conducted * 100) if conducted > 0
else 0`.  Python floats are modelled as exact rationals. -/
def subjectPercentage (conducted attended : Nat) : ℚ :=
  if 0 < conducted then (attended : ℚ) / (conducted : ℚ) * 100 else 0

/-- The report `prepare_results_for_web` builds.  The percentages are kept
exact; the web layer's `round(x, 2)` display rounding is not modelled. -/
structure WebReport where
  subjects : List (Nat × Nat × ℚ)
  total_conducted : Nat
  total_attended : Nat
  overall_percentage : ℚ
  status : Status
deriving DecidableEq

/-- `WebAttendanceChecker.prepare_results_for_web` (webapp.py 157-204):
absent when either stored list is empty; otherwise pair the lists, sum them,
compute the guarded percentage and classify it against the two thresholds. -/
def prepare_results_for_web (conducted_list attended_list : List Nat) :
    Option WebReport :=
  if conducted_list.isEmpty || attended_list.isEmpty then none
  else
    let subjects := (conducted_list.zip attended_list).map
      (fun ca => (ca.1, ca.2, subjectPercentage ca.1 ca.2))
    let totalC := conducted_list.sum
    let totalA := attended_list.sum
    let pct : ℚ :=
      if 0 < totalC then (totalA : ℚ) / (totalC : ℚ) * 100 else 0
    let st :=
      if (GOOD_ATTENDANCE_THRESHOLD : ℚ) ≤ pct then Status.GOOD
      else if (WARNING_ATTENDANCE_THRESHOLD : ℚ) ≤ pct then Status.WARNING
      else Status.CRITICAL
    some ⟨subjects, totalC, totalA, pct, st⟩

/-! ## Claim theorems: C1, C6, C8, C10 -/

/-- C1 counterexample: a subject whose conducted extraction failed (attended
extracted as 5) is dropped entirely - both stored lists stay empty - rather
than being kept in the record list with absent counts as the claim states. -/
theorem failed_subject_dropped_cex :
    processSubjects [((none : Option Nat), some 5)] = ([], []) := by
  rfl

/-- C1 amended: a subject whose conducted or attended extraction fails is
skipped, with nothing appended to either list; the stored lists therefore
hold exactly the subjects whose both counts were extracted, and aggregation
covers exactly the stored records. -/
theorem processSubjects_keeps_exactly_complete (rs : List (Option Nat × Option Nat)) :
    (processSubjects rs).1.length
      = (rs.filter (fun r => r.1.isSome && r.2.isSome)).length ∧
    (processSubjects rs).2.length
      = (rs.filter (fun r => r.1.isSome && r.2.isSome)).length := by
  induction rs with
  | nil => exact ⟨rfl, rfl⟩
  | cons r rest ih =>
    obtain ⟨c, a⟩ := r
    cases c <;> cases a <;>
      simp [processSubjects, List.filter, ih.1, ih.2]

/-- C6 counterexample: with both stored lists empty (every record filtered
out as absent) the aggregator returns no report at all, not a report with
overallPercentage 0 and status CRITICAL as the claim states. -/
theorem empty_aggregation_no_report_cex :
    prepare_results_for_web [] [] = none := by
  rfl

/-- C6 amended: when the stored lists are empty the aggregator produces no
report (absent); for nonempty lists whose total conducted count is 0 the
report carries overallPercentage 0 and status CRITICAL, the division being
guarded so no division by zero is performed. -/
theorem zero_conducted_critical
    (conducted_list attended_list : List Nat)
    (hc : conducted_list ≠ [])
    (ha : attended_list ≠ [])
    (hz : conducted_list.sum = 0) :
    ∃ r, prepare_results_for_web conducted_list attended_list = some r ∧
      r.overall_percentage = 0 ∧ r.status = Status.CRITICAL := by
  have hc' : conducted_list.isEmpty = false := by
    simpa [List.isEmpty_iff] using hc
  have ha' : attended_list.isEmpty = false := by
    simpa [List.isEmpty_iff] using ha
  simp only [prepare_results_for_web, hc', ha', hz, Bool.or_self,
    Bool.false_eq_true, if_false, Nat.lt_irrefl]
  refine ⟨_, rfl, ?_, ?_⟩
  · simp
  · norm_num [GOOD_ATTENDANCE_THRESHOLD, WARNING_ATTENDANCE_THRESHOLD]

/-- C6 amended witness at conducted = [0], attended = [0]. -/
theorem zero_conducted_critical_witness :
    ∃ r, prepare_results_for_web [0] [0] = some r ∧
      r.overall_percentage = 0 ∧ r.status = Status.CRITICAL :=
  zero_conducted_critical [0] [0] (by decide) (by decide) (by decide)

/-- C8: anchor discovery tries the CSS selector, the XPath selector and then
the alternative selectors in this fixed order, stops at the first strategy
returning at least one element, and never merges results across strategies;
when every strategy is empty the result is empty (the code then only logs
clickable elements and the run cannot proceed for the page). -/
theorem discoverAnchors_first_nonempty {E : Type} (p : PageStrategies E) :
    discoverAnchors p = firstNonEmptyStrategy (p.css :: p.xpath :: p.alts) := by
  unfold discoverAnchors firstNonEmptyStrategy
  cases hcss : p.css.isEmpty with
  | false => simp [List.find?, hcss]
  | true =>
    have hcs : p.css = [] := by simpa [List.isEmpty_iff] using hcss
    cases hx : p.xpath.isEmpty with
    | false => simp [List.find?, hcss, hx]
    | true =>
      have hxs : p.xpath = [] := by simpa [List.isEmpty_iff] using hx
      simp only [List.find?, hcss, hx, Bool.not_true, if_true, hcs, hxs,
        List.isEmpty_nil]
      generalize p.alts = ls
      induction ls with
      | nil => rfl
      | cons s ss ih =>
        cases hs : s.isEmpty with
        | false => simp [altLoop, List.find?, hs]
        | true => simpa [altLoop, List.find?, hs] using ih

/-- C10: the conducted and attended lists always end with equal lengths, a
pair being appended only together; moreover their positionwise pairing is
exactly the sequence of fully extracted subjects in subject order, so the
aggregator's pairwise traversal is well-formed. -/
theorem processSubjects_parallel_lists (rs : List (Option Nat × Option Nat)) :
    (processSubjects rs).1.length = (processSubjects rs).2.length ∧
    (processSubjects rs).1.zip (processSubjects rs).2
      = rs.filterMap (fun r =>
          match r with
          | (some c, some a) => some (c, a)
          | _ => none) := by
  induction rs with
  | nil => exact ⟨rfl, rfl⟩
  | cons r rest ih =>
    obtain ⟨c, a⟩ := r
    cases c <;> cases a <;>
      simp [processSubjects, List.filterMap, ih.1, ih.2]

/-! ## CaptchaSolver: `solve_captcha_with_gemini` and
`solve_captcha_with_screenshot` -/

/-- `config.CAPTCHA_PROMPTS` (config.py 49-54). -/
def CAPTCHA_PROMPTS : List Str :=
  [("Extract only the alphanumeric text from this captcha image. Return just "
    ++ "the characters with no explanations, no prefixes, no quotes - only "
    ++ "the pure text characters.").data,
   "What text is shown in this captcha image? Reply with only the text characters in.".data,
   "Read the captcha code from this image. Output only the code.".data,
   "OCR this captcha image. Return only the alphanumeric characters.".data]

/-- The caller-side acceptance gate of `solve_captcha_with_gemini` (line 261):
`cleaned_text and len(cleaned_text) >= 4 and cleaned_text.isalnum()`. -/
def acceptGate (c : Str) : Bool :=
  !c.isEmpty && decide (4 ≤ c.length) && isAlnumStr c

/-- The retry loop of `solve_captcha_with_gemini` (attendance_checker.py
240-279).  `ai attempt prompt` is the AI capability's response for that
attempt (`none` for a missing/failed response, an exception being logged and
the loop continued); the prompt passed is variant `attempt mod
(number of prompt variants)`.  A nonempty response is stripped, normalized
with `clean_captcha_response` and returned immediately when the gate passes. -/
def geminiLoop (prompts : List Str) (ai : Nat → Str → Option Str) :
    Nat → Nat → Option Str
  | _, 0 => none
  | attempt, fuel + 1 =>
    match ai attempt (prompts.getD (attempt % prompts.length) []) with
    | some s =>
      if s.isEmpty then geminiLoop prompts ai (attempt + 1) fuel
      else
        match clean_captcha_response (stripWs s) with
        | some c =>
          if acceptGate c then some c else geminiLoop prompts ai (attempt + 1) fuel
        | none => geminiLoop prompts ai (attempt + 1) fuel
    | none => geminiLoop prompts ai (attempt + 1) fuel

/-- `JainAttendanceChecker.solve_captcha_with_gemini` (attendance_checker.py
208-283) after the image download, which the AI capability abstracts: run the
retry loop from attempt 0.  The code's failure value `""` is `none` here (the
caller tests it by truthiness). -/
def solve_captcha_with_gemini (prompts : List Str) (ai : Nat → Str → Option Str)
    (max_retries : Nat) : Option Str :=
  geminiLoop prompts ai 0 max_retries

/-- The outcome of one solver attempt `k`, spec-side: the cleaned response of
prompt variant `k mod (number of variants)` when it passes the gate, absent
otherwise. -/
def geminiAttempt (prompts : List Str) (ai : Nat → Str → Option Str) (k : Nat) :
    Option Str :=
  match ai k (prompts.getD (k % prompts.length) []) with
  | some s =>
    if s.isEmpty then none
    else
      match clean_captcha_response (stripWs s) with
      | some c => if acceptGate c then some c else none
      | none => none
  | none => none

/-- `JainAttendanceChecker.solve_captcha_with_screenshot`
(attendance_checker.py 285-328) after the screenshot, which the response
argument abstracts: a single AI call with the fixed prompt
`config.CAPTCHA_PROMPT = CAPTCHA_PROMPTS[0]`; a nonempty response is
normalized and any non-absent cleaned text is returned - there is no retry
loop and no length-4/alphanumeric gate here. -/
def solve_captcha_with_screenshot (response : Option Str) : Option Str :=
  match response with
  | some s =>
    if s.isEmpty then none
    else
      match clean_captcha_response s with
      | some c => some c
      | none => none
  | none => none

/-! ## Claim theorems: C9, C3, C5 -/

/-- C9: typing the text "aB 3!" with the character-by-character field typer
emits exactly the keystrokes 'A', 'B', '3' in that order - the space and the
'!' are dropped by the per-character cleaner and are not typed as blanks - so
the observed field value is "AB3". -/
theorem fill_captcha_aB3_ok :
    fill_captcha_character_by_character ("aB 3!".data) = ['A', 'B', '3'] ∧
    fill_captcha_character_by_character ("aB 3!".data) = "AB3".data := by
  constructor <;> rfl

/-- C3 counterexample: with a single non-visible element whose text is the
pure digit string "7" (in [1,50]), no visible element qualifies, yet the
fallback reparse returns absent rather than 7 as the claim states - the
fallback has no pure-digit branch. -/
theorem extract_attended_digit_fallback_cex :
    extract_attended_count [⟨false, "7".data⟩] = none ∧
    isDigitStr (stripWs ("7".data)) = true ∧
    1 ≤ digitsToNat ("7".data) ∧ digitsToNat ("7".data) ≤ 50 := by
  refine ⟨rfl, rfl, by decide, by decide⟩

/-- C3 amended: when no visible element qualifies, the last collected element
is reparsed only through the "Total-" branch; if its text does not contain
the marker - in particular when it is a pure digit string - the extractor
returns absent. -/
theorem extract_attended_fallback_total_only
    (elems : List Element)
    (hscan : attendedLoop elems.reverse = none)
    (hlast : ∀ e, elems.getLast? = some e → containsSub totalMarker e.text = false) :
    extract_attended_count elems = none := by
  unfold extract_attended_count
  rw [hscan]
  cases hl : elems.getLast? with
  | none => rfl
  | some e =>
    have := hlast e hl
    simp [attendedLast, this]

/-- C3 amended witness at the concrete input of the counterexample. -/
theorem extract_attended_fallback_total_only_witness :
    extract_attended_count [⟨false, "7".data⟩] = none :=
  extract_attended_fallback_total_only [⟨false, "7".data⟩] rfl
    (by intro e he; cases he; rfl)

/-- C5 counterexample: the extractors populate a record with conducted 5 and
attended 13 (from the composite string "P-12/E-1/L-0/MCR-0/R-0/Total-13"),
so the invariant attended ≤ conducted claimed for every populated
SubjectRecord fails on the code. -/
theorem attended_exceeds_conducted_cex :
    extract_conducted_count [⟨true, "5".data⟩] = some 5 ∧
    extract_attended_count [⟨true, "P-12/E-1/L-0/MCR-0/R-0/Total-13".data⟩] = some 13 ∧
    ¬(13 ≤ 5) := by
  refine ⟨by decide, by decide, by decide⟩

/-- C5 amended: populated counts are nonnegative integers, and a conducted
count accepted by the visible scan lies in [1,50]; the code enforces no
relation between attended and conducted, and the fallback paths carry no
range check. -/
theorem conducted_visible_scan_range
    (elems : List Element) (n : Nat)
    (h : conductedLoop elems = some n) :
    1 ≤ n ∧ n ≤ 50 := by
  induction elems with
  | nil => simp [conductedLoop] at h
  | cons e rest ih =>
    rw [conductedLoop] at h
    split at h
    · split at h
      · dsimp only at h
        split at h
        · rename_i hrange
          cases h
          exact hrange
        · exact ih h
      · exact ih h
    · exact ih h

/-- C5 amended witness: the visible scan accepts "5", and 5 lies in [1,50]. -/
theorem conducted_visible_scan_range_witness :
    conductedLoop [⟨true, "5".data⟩] = some 5 ∧ 1 ≤ 5 ∧ 5 ≤ 50 :=
  ⟨by decide, conducted_visible_scan_range [⟨true, "5".data⟩] 5 (by decide)⟩

/-! ## Helper lemmas on stripping and the solver loop -/

/-- Stripping a leading run twice is the same as stripping it once. -/
theorem dropWhile_dropWhile (p : Char → Bool) (l : Str) :
    (l.dropWhile p).dropWhile p = l.dropWhile p := by
  induction l with
  | nil => rfl
  | cons c cs ih =>
    cases hc : p c with
    | true => simpa [List.dropWhile_cons, hc] using ih
    | false => simp [List.dropWhile_cons, hc]

/-- The head surviving a `dropWhile` fails the predicate. -/
theorem head_dropWhile_false (p : Char → Bool) (l : Str) (c : Char) (cs : Str)
    (h : l.dropWhile p = c :: cs) : p c = false := by
  induction l with
  | nil => simp at h
  | cons d ds ih =>
    rw [List.dropWhile_cons] at h
    split at h
    · exact ih h
    · cases h
      rename_i hd
      simpa using hd

/-- `stripBy` is idempotent: a stripped string strips to itself. -/
theorem stripBy_idem (p : Char → Bool) (s : Str) :
    stripBy p (stripBy p s) = stripBy p s := by
  unfold stripBy
  set a := s.dropWhile p with ha
  set b := a.reverse.dropWhile p with hb
  have h1 : b.reverse.dropWhile p = b.reverse := by
    cases hbr : b.reverse with
    | nil => rfl
    | cons c bs =>
      have hsuf : b <:+ a.reverse := hb ▸ List.dropWhile_suffix p
      obtain ⟨t, ht⟩ := hsuf
      have hae : a = c :: (bs ++ t.reverse) := by
        have h2 := congrArg List.reverse ht
        simp only [List.reverse_append, List.reverse_reverse] at h2
        rw [hbr] at h2
        simpa using h2.symm
      have hpc : p c = false :=
        head_dropWhile_false p s c (bs ++ t.reverse) (ha.symm.trans hae)
      simp [List.dropWhile_cons, hpc]
  rw [h1, List.reverse_reverse, hb, dropWhile_dropWhile]

/-- `stripWs` is idempotent. -/
theorem stripWs_idem (s : Str) : stripWs (stripWs s) = stripWs s :=
  stripBy_idem _ s

/-- Normalizing `s.strip()` equals normalizing `s`: the cleaner strips first
anyway, so the URL solver's extra `.strip()` before `clean_captcha_response`
changes nothing. -/
theorem clean_stripWs (s : Str) :
    clean_captcha_response (stripWs s) = clean_captcha_response s := by
  cases hs : s.isEmpty with
  | true =>
    have hse : s = [] := List.isEmpty_iff.mp hs
    subst hse
    rfl
  | false =>
    cases hw : (stripWs s).isEmpty with
    | true =>
      have hwe : stripWs s = [] := List.isEmpty_iff.mp hw
      have hcore : cleanCore s = [] := by
        unfold cleanCore cleanStep1
        rw [hwe]
        rfl
      rw [hwe]
      simp [clean_captcha_response, hs, hcore, cleanFinalize]
    | false =>
      have hcore : cleanCore (stripWs s) = cleanCore s := by
        unfold cleanCore cleanStep1
        rw [stripWs_idem]
      simp only [clean_captcha_response, hs, hw, Bool.false_eq_true, if_false,
        hcore]

/-- The retry loop visits attempts `start, start+1, ...` in order and returns
the first attempt's accepted value. -/
theorem geminiLoop_eq_findSome (prompts : List Str) (ai : Nat → Str → Option Str) :
    ∀ fuel start, geminiLoop prompts ai start fuel
      = (List.range' start fuel).findSome? (geminiAttempt prompts ai) := by
  intro fuel
  induction fuel with
  | zero => intro start; rfl
  | succ n ih =>
    intro start
    rw [geminiLoop, List.range'_succ, List.findSome?_cons]
    cases hai : ai start (prompts.getD (start % prompts.length) []) with
    | none =>
      simp only [geminiAttempt, hai]
      exact ih (start + 1)
    | some s =>
      cases hse : s.isEmpty with
      | true =>
        simp only [geminiAttempt, hai, hse, if_true]
        exact ih (start + 1)
      | false =>
        cases hc : clean_captcha_response (stripWs s) with
        | none =>
          simp only [geminiAttempt, hai, hse, Bool.false_eq_true, if_false, hc]
          exact ih (start + 1)
        | some c =>
          cases hg : acceptGate c with
          | true =>
            simp only [geminiAttempt, hai, hse, Bool.false_eq_true, if_false,
              hc, hg, if_true]
          | false =>
            simp only [geminiAttempt, hai, hse, Bool.false_eq_true, if_false,
              hc, hg]
            exact ih (start + 1)

/-! ## Claim theorems: C2, C7 -/

/-- C2 counterexample: with the constant AI response "AB" for every prompt,
the URL front-end rejects the cleaned text "AB" (length below 4) on all
three attempts and returns absent, while the screenshot front-end accepts
the same response and returns "AB" - the two front-ends do not apply the
same acceptance gate, so the same response sequence yields different
tokens. -/
theorem solver_front_ends_differ_cex :
    solve_captcha_with_gemini CAPTCHA_PROMPTS (fun _ _ => some ("AB".data)) 3 = none ∧
    solve_captcha_with_screenshot (some ("AB".data)) = some ("AB".data) := by
  exact ⟨by decide, by decide⟩

/-- C2 amended: the two front-ends share the normalizer
`clean_captcha_response`, and the screenshot prompt equals the URL method's
first prompt variant, so whenever the first response's cleaned text passes
the strict gate both return that same token; but the screenshot method is a
single attempt accepting any non-absent cleaned text, with no retry and no
length-4/alphanumeric gate, so on other response sequences the results can
differ. -/
theorem solver_front_ends_agree_on_gated_first_response
    (prompts : List Str) (ai : Nat → Str → Option Str) (max_retries : Nat)
    (s c : Str)
    (hmax : 1 ≤ max_retries)
    (h0 : ai 0 (prompts.getD (0 % prompts.length) []) = some s)
    (hne : s.isEmpty = false)
    (hclean : clean_captcha_response (stripWs s) = some c)
    (hgate : acceptGate c = true) :
    solve_captcha_with_gemini prompts ai max_retries = some c ∧
    solve_captcha_with_screenshot
        (ai 0 (prompts.getD (0 % prompts.length) [])) = some c := by
  obtain ⟨fuel, rfl⟩ : ∃ f, max_retries = f + 1 :=
    ⟨max_retries - 1, by omega⟩
  constructor
  · show geminiLoop prompts ai 0 (fuel + 1) = some c
    rw [geminiLoop]
    simp only [h0, hne, hclean, hgate, Bool.false_eq_true, if_false, if_true]
  · have hcs : clean_captcha_response s = some c :=
      (clean_stripWs s).symm.trans hclean
    rw [h0]
    simp only [solve_captcha_with_screenshot, hne, Bool.false_eq_true,
      if_false, hcs]

/-- C2 amended witness: response "XY12" passes the strict gate, and both
front-ends return the token "XY12". -/
theorem solver_front_ends_agree_witness :
    solve_captcha_with_gemini CAPTCHA_PROMPTS
        (fun _ _ => some ("XY12".data)) 1 = some ("XY12".data) ∧
    solve_captcha_with_screenshot
        ((fun _ _ => some ("XY12".data)) 0
          (CAPTCHA_PROMPTS.getD (0 % CAPTCHA_PROMPTS.length) []))
        = some ("XY12".data) :=
  solver_front_ends_agree_on_gated_first_response CAPTCHA_PROMPTS
    (fun _ _ => some ("XY12".data)) 1 ("XY12".data) ("XY12".data)
    (by decide) rfl (by decide) (by decide) (by decide)

/-- C7: for every maxAttempts at least 1 and nonempty prompt list, the URL
solver visits attempts 0..maxAttempts-1 in order, each using prompt variant
attempt mod (number of variants), returns immediately the first cleaned
response passing the gate (length at least 4, fully alphanumeric), and
returns absent when no attempt yields one - exactly the first hit of
`geminiAttempt` over `List.range maxAttempts`. -/
theorem solve_gemini_first_accepted
    (prompts : List Str) (ai : Nat → Str → Option Str) (max_retries : Nat)
    (hmax : 1 ≤ max_retries) (hp : prompts ≠ []) :
    solve_captcha_with_gemini prompts ai max_retries
      = (List.range max_retries).findSome? (geminiAttempt prompts ai) := by
  unfold solve_captcha_with_gemini
  rw [List.range_eq_range']
  exact geminiLoop_eq_findSome prompts ai max_retries 0

/-- C7 witness at the configured prompt list, three attempts and a constant
accepted response. -/
theorem solve_gemini_first_accepted_witness :
    1 ≤ 3 ∧ CAPTCHA_PROMPTS ≠ [] ∧
    solve_captcha_with_gemini CAPTCHA_PROMPTS
        (fun _ _ => some ("XY12".data)) 3
      = (List.range 3).findSome?
          (geminiAttempt CAPTCHA_PROMPTS (fun _ _ => some ("XY12".data))) :=
  ⟨by decide, by decide,
    solve_gemini_first_accepted CAPTCHA_PROMPTS
      (fun _ _ => some ("XY12".data)) 3 (by decide) (by decide)⟩

/-! ## Helper lemmas for the normalizer's idempotence (C4) -/

/-- Unpack `isAZ09` into its code-point ranges. -/
theorem az09_toNat {c : Char} (h : isAZ09 c = true) :
    (65 ≤ c.toNat ∧ c.toNat ≤ 90) ∨ (48 ≤ c.toNat ∧ c.toNat ≤ 57) := by
  simpa [isAZ09] using h

/-- An `[A-Z0-9]` character is not whitespace. -/
theorem az09_not_ws {c : Char} (h : isAZ09 c = true) :
    c.isWhitespace = false := by
  have hn := az09_toNat h
  have h1 : c ≠ ' ' := by rintro rfl; revert hn; decide
  have h2 : c ≠ '\t' := by rintro rfl; revert hn; decide
  have h3 : c ≠ '\r' := by rintro rfl; revert hn; decide
  have h4 : c ≠ '\n' := by rintro rfl; revert hn; decide
  simp [Char.isWhitespace, h1, h2, h3, h4]

/-- An `[A-Z0-9]` character is not in the stripped punctuation set. -/
theorem az09_not_punct {c : Char} (h : isAZ09 c = true) :
    isPunctChar c = false := by
  have hn := az09_toNat h
  cases hp : isPunctChar c with
  | false => rfl
  | true =>
    exfalso
    have hmem : c ∈ punctChars := by
      have h2 := hp
      rw [isPunctChar, List.contains_eq_any_beq, List.any_eq_true] at h2
      obtain ⟨d, hd, hbeq⟩ := h2
      obtain rfl := eq_of_beq hbeq
      exact hd
    have hnone : ∀ d ∈ punctChars, isAZ09 d = false := by decide
    rw [hnone c hmem] at h
    exact Bool.false_ne_true h

/-- `Char.toUpper` fixes an `[A-Z0-9]` character. -/
theorem az09_toUpper {c : Char} (h : isAZ09 c = true) : c.toUpper = c := by
  have hn := az09_toNat h
  simp only [Char.toUpper]
  rw [if_neg (by omega)]

/-- A list whose members all fail `p` is untouched by `dropWhile`. -/
theorem dropWhile_eq_self_of {p : Char → Bool} {l : Str}
    (h : ∀ c ∈ l, p c = false) : l.dropWhile p = l := by
  cases l with
  | nil => rfl
  | cons c cs => simp [List.dropWhile_cons, h c (List.mem_cons_self c cs)]

/-- A list whose members all fail `p` is untouched by `stripBy`. -/
theorem stripBy_eq_self {p : Char → Bool} {s : Str}
    (h : ∀ c ∈ s, p c = false) : stripBy p s = s := by
  unfold stripBy
  rw [dropWhile_eq_self_of h,
    dropWhile_eq_self_of (fun c hc => h c (List.mem_reverse.mp hc)),
    List.reverse_reverse]

/-- Uppercasing fixes an all-`[A-Z0-9]` string. -/
theorem toUpperStr_eq_self {r : Str} (h : r.all isAZ09 = true) :
    toUpperStr r = r := by
  unfold toUpperStr
  induction r with
  | nil => rfl
  | cons c cs ih =>
    rw [List.all_cons, Bool.and_eq_true] at h
    rw [List.map_cons, az09_toUpper h.1, ih h.2]

/-- Every character of a matched pattern occurs in the matched string. -/
theorem startsWith_mem {pat r : Str} (h : startsWithPat pat r = true) :
    ∀ c ∈ pat, c ∈ r := by
  induction pat generalizing r with
  | nil => intro c hc; simp at hc
  | cons p ps ih =>
    cases r with
    | nil => simp [startsWithPat] at h
    | cons d ds =>
      rw [startsWithPat, Bool.and_eq_true, beq_iff_eq] at h
      obtain ⟨rfl, h2⟩ := h
      intro c hc
      rcases List.mem_cons.mp hc with rfl | hc
      · exact List.mem_cons_self _ _
      · exact List.mem_cons_of_mem _ (ih h2 c hc)

/-- Every unwanted pattern contains a colon. -/
theorem colon_mem_unwanted : ∀ pat ∈ unwantedPatterns, (':' : Char) ∈ pat := by
  decide

/-- No unwanted pattern matches the front of an all-`[A-Z0-9]` string. -/
theorem az09_no_pattern {r : Str} (hall : r.all isAZ09 = true) :
    ∀ pat ∈ unwantedPatterns, startsWithPat pat r = false := by
  intro pat hpat
  cases hsw : startsWithPat pat r with
  | false => rfl
  | true =>
    exfalso
    have hcr : (':' : Char) ∈ r :=
      startsWith_mem hsw ':' (colon_mem_unwanted pat hpat)
    have hcz : isAZ09 ':' = true := List.all_eq_true.mp hall ':' hcr
    revert hcz
    decide

/-- When no pattern matches, the pattern-stripping step is the identity. -/
theorem stripOneLeading_eq_self (pats : List Str) (s : Str)
    (h : ∀ pat ∈ pats, startsWithPat pat s = false) :
    stripOneLeading pats s = s := by
  induction pats with
  | nil => rfl
  | cons pat rest ih =>
    rw [stripOneLeading]
    simp only [h pat (List.mem_cons_self _ _), Bool.false_eq_true, if_false]
    exact ih (fun q hq => h q (List.mem_cons_of_mem _ hq))

/-- On an all-`p` input the run finder returns the whole string truncated to
`m`, provided it reaches length `k`; `cur` is the pending reversed run. -/
theorem firstClassRunAux_all (p : Char → Bool) (k m : Nat) (s : Str) :
    ∀ cur, s.all p = true →
      firstClassRunAux p k m cur s
        = if k ≤ cur.length + s.length then some ((cur.reverse ++ s).take m)
          else none := by
  induction s with
  | nil =>
    intro cur _
    simp [firstClassRunAux]
  | cons c cs ih =>
    intro cur hall
    rw [List.all_cons, Bool.and_eq_true] at hall
    rw [firstClassRunAux]
    simp only [hall.1, if_true]
    rw [ih (c :: cur) hall.2]
    have hlen : (c :: cur).length + cs.length = cur.length + (c :: cs).length := by
      simp only [List.length_cons]
      omega
    have happ : (c :: cur).reverse ++ cs = cur.reverse ++ (c :: cs) := by
      simp
    rw [hlen, happ]

/-- On an all-`p` string the first `p{k,m}` match is the first `m` characters
when the string reaches length `k`, absent otherwise. -/
theorem firstClassRun_all (p : Char → Bool) (k m : Nat) (s : Str)
    (h : s.all p = true) :
    firstClassRun p k m s = if k ≤ s.length then some (s.take m) else none := by
  have haux := firstClassRunAux_all p k m s [] h
  simpa [firstClassRun] using haux

/-- The core cleaning pipeline always emits an all-`[A-Z0-9]` string. -/
theorem cleanCore_all (s : Str) : (cleanCore s).all isAZ09 = true := by
  unfold cleanCore cleanStep6
  rw [List.all_eq_true]
  intro c hc
  exact (List.mem_filter.mp hc).2

/-- The core cleaning pipeline fixes an all-`[A-Z0-9]` string of length at
most 8: every step is the identity there. -/
theorem cleanCore_id (r : Str) (hall : r.all isAZ09 = true)
    (hlen : r.length ≤ 8) : cleanCore r = r := by
  have hmem : ∀ c ∈ r, isAZ09 c = true := List.all_eq_true.mp hall
  have h1 : cleanStep1 r = r := by
    unfold cleanStep1 stripWs
    rw [stripBy_eq_self (fun c hc => az09_not_ws (hmem c hc))]
    exact toUpperStr_eq_self hall
  have h2 : cleanStep2 r = r :=
    stripOneLeading_eq_self _ r (az09_no_pattern hall)
  have h3 : cleanStep3 r = r := by
    unfold cleanStep3
    rw [firstClassRun_all isAZ09 3 8 r hall]
    by_cases hl3 : 3 ≤ r.length
    · rw [if_pos hl3]
      exact List.take_of_length_le hlen
    · rw [if_neg hl3]
  have h4 : cleanStep4 r = r := by
    unfold cleanStep4
    exact stripBy_eq_self (fun c hc => az09_not_punct (hmem c hc))
  have h6 : cleanStep6 r = r := by
    unfold cleanStep6
    exact List.filter_eq_self.mpr hmem
  unfold cleanCore cleanStep5 nfkd
  rw [h1, h2, h3, h4, h6]

/-- Whatever the final validation emits from an all-`[A-Z0-9]` input is a
nonempty all-`[A-Z0-9]` string of length at most 10. -/
theorem cleanFinalize_spec (t r : Str) (hall : t.all isAZ09 = true)
    (h : cleanFinalize t = some r) :
    r ≠ [] ∧ r.all isAZ09 = true ∧ r.length ≤ 10 := by
  unfold cleanFinalize at h
  split at h
  · rename_i hg
    cases h
    exact ⟨by simpa [List.isEmpty_iff] using hg.1, hall, hg.2.2⟩
  · split at h
    · rename_i hg1 hg2
      rw [firstClassRun_all isAZ09 4 6 t hall, if_pos (by omega)] at h
      cases h
      refine ⟨?_, ?_, ?_⟩
      · have h6 : (t.take 6).length = 6 := by
          rw [List.length_take]
          omega
        intro he
        rw [he] at h6
        simp at h6
      · rw [List.all_eq_true]
        intro c hc
        exact List.all_eq_true.mp hall c ((List.take_sublist 6 t).subset hc)
      · rw [List.length_take]
        omega
    · split at h
      · rename_i hg1 hg2 hg3
        cases h
        have hlen10 : t.length ≤ 10 := by
          by_contra hgt
          exact hg2 ⟨hg3, by omega⟩
        exact ⟨by simpa [List.isEmpty_iff] using hg3, hall, hlen10⟩
      · simp at h

/-- C4 supporting lemma: the normalizer's output is always a nonempty
all-`[A-Z0-9]` string of length at most 10. -/
theorem clean_output_spec (s r : Str) (h : clean_captcha_response s = some r) :
    r ≠ [] ∧ r.all isAZ09 = true ∧ r.length ≤ 10 := by
  unfold clean_captcha_response at h
  split at h
  · simp at h
  · exact cleanFinalize_spec _ r (cleanCore_all s) h

/-- The normalizer fixes every nonempty all-`[A-Z0-9]` string of length at
most 8. -/
theorem clean_fixes_short (r : Str) (h0 : r ≠ []) (hall : r.all isAZ09 = true)
    (hlen : r.length ≤ 8) : clean_captcha_response r = some r := by
  have hne : ¬r.isEmpty = true := by simpa [List.isEmpty_iff] using h0
  unfold clean_captcha_response
  rw [if_neg hne, cleanCore_id r hall hlen]
  unfold cleanFinalize
  by_cases h3 : 3 ≤ r.length
  · rw [if_pos ⟨hne, h3, by omega⟩]
  · rw [if_neg (fun hg => h3 hg.2.1), if_neg (fun hg => by omega),
      if_pos hne]

/-! ## Claim theorems: C4 -/

/-- C4 counterexample: on "AB.CD.EF.GH.IJ" the normalizer returns the
10-character "ABCDEFGHIJ" (no 3-run exists before the punctuation filter),
but reapplying it to that output truncates through the `[A-Z0-9]{3,8}`
search to "ABCDEFGH" - the normalizer is not idempotent on this output. -/
theorem clean_not_idempotent_cex :
    clean_captcha_response ("AB.CD.EF.GH.IJ".data) = some ("ABCDEFGHIJ".data) ∧
    clean_captcha_response ("ABCDEFGHIJ".data) = some ("ABCDEFGH".data) ∧
    some ("ABCDEFGH".data) ≠ some ("ABCDEFGHIJ".data) :=
  ⟨by decide, by decide, by decide⟩

/-- C4 amended: the normalizer is idempotent on its outputs of length at most
8 - if `clean_captcha_response s` returns `r` with `r.length ≤ 8`, applying
it to `r` returns `r` unchanged; outputs of length 9 or 10 are instead cut to
their first 8 characters on reapplication. -/
theorem clean_idempotent_le8 (s r : Str)
    (h : clean_captcha_response s = some r) (hlen : r.length ≤ 8) :
    clean_captcha_response r = some r := by
  obtain ⟨h0, hall, -⟩ := clean_output_spec s r h
  exact clean_fixes_short r h0 hall hlen

/-- C4 amended witness: the spec's own example input normalizes to "XY12",
whose renormalization is a no-op. -/
theorem clean_idempotent_le8_witness :
    clean_captcha_response ("XY12".data) = some ("XY12".data) :=
  clean_idempotent_le8 ("THE CAPTCHA IS: \x27xY12\x27".data) ("XY12".data)
    (by decide) (by decide)
